import Mathlib

/-!
# Si5351ForAtari8bit: the register write sequence of `main`

A shallow embedding of `Si5351ForAtari8bit.cc`.  The program talks to the
operating system through four calls (`open`, `ioctl`, `write`, `close`) and
three output streams.  The calls the program makes are recorded, in order,
in a trace of `Event`s; what the operating system answers is given by an
`Env`.  C `int` values are `Int`; the two `uint8_t` parameters of
`wiringPiI2CWriteReg8` are reduced modulo 256.
-/

namespace Si5351

/-! ## Register map (the `#define`s of the source) -/

def SI5351_ADDRESS : Int := 0x60

def SI5351_REGISTER_0_DEVICE_STATUS : Int := 0
def SI5351_REGISTER_3_OUTPUT_ENABLE_CONTROL : Int := 3

def SI5351_REGISTER_16_CLK0_CONTROL : Int := 16
def SI5351_REGISTER_17_CLK1_CONTROL : Int := 17
def SI5351_REGISTER_18_CLK2_CONTROL : Int := 18
def SI5351_REGISTER_19_CLK3_CONTROL : Int := 19
def SI5351_REGISTER_20_CLK4_CONTROL : Int := 20
def SI5351_REGISTER_21_CLK5_CONTROL : Int := 21
def SI5351_REGISTER_22_CLK6_CONTROL : Int := 22
def SI5351_REGISTER_23_CLK7_CONTROL : Int := 23
def SI5351_REGISTER_24_CLK3_0_DISABLE_STATE : Int := 24
def SI5351_REGISTER_25_CLK7_4_DISABLE_STATE : Int := 25

def SI5351_REGISTER_26_PLL_A_REG0 : Int := 26
def SI5351_REGISTER_27_PLL_A_REG1 : Int := 27
def SI5351_REGISTER_28_PLL_A_REG2 : Int := 28
def SI5351_REGISTER_29_PLL_A_REG3 : Int := 29
def SI5351_REGISTER_30_PLL_A_REG4 : Int := 30
def SI5351_REGISTER_31_PLL_A_REG5 : Int := 31
def SI5351_REGISTER_32_PLL_A_REG6 : Int := 32
def SI5351_REGISTER_33_PLL_A_REG7 : Int := 33

def SI5351_REGISTER_42_MULTISYNTH0_PARAMETERS_1 : Int := 42
def SI5351_REGISTER_43_MULTISYNTH0_PARAMETERS_2 : Int := 43
def SI5351_REGISTER_44_MULTISYNTH0_PARAMETERS_3 : Int := 44
def SI5351_REGISTER_45_MULTISYNTH0_PARAMETERS_4 : Int := 45
def SI5351_REGISTER_46_MULTISYNTH0_PARAMETERS_5 : Int := 46
def SI5351_REGISTER_47_MULTISYNTH0_PARAMETERS_6 : Int := 47
def SI5351_REGISTER_48_MULTISYNTH0_PARAMETERS_7 : Int := 48
def SI5351_REGISTER_49_MULTISYNTH0_PARAMETERS_8 : Int := 49

def SI5351_REGISTER_177_PLL_RESET : Int := 177

def I2C_DEVICE : String := "/dev/i2c-1"

/-! ## The operating system boundary -/

/-- Diagnostic texts the program prints; `regWriteError reg` is the line
`Regiter write error.` followed by the register number. -/
inductive Diag where
  | failedOpen
  | failedSlaveAddress
  | failedWrite
  | initError
  | regWriteError (reg : Int)
  | setupCompleted
  deriving DecidableEq, Repr

/-- One observable action of the program, in the order the source performs
them.  `sysOpen path` is `open(path, O_RDWR)`, `sysIoctl file addr` is
`ioctl(file, I2C_SLAVE, addr)`, and `sysWrite file reg value` is
`write(file, buffer, 2)` with `buffer = [reg, value]`. -/
inductive Event where
  | sysOpen (path : String)
  | sysIoctl (file : Int) (deviceAddress : Int)
  | sysClose (file : Int)
  | sysWrite (file : Int) (reg : Nat) (value : Nat)
  | perror (d : Diag)
  | cerr (d : Diag)
  | cout (d : Diag)
  deriving DecidableEq, Repr

/-- Chronological record of the actions performed so far. -/
abbrev World := List Event

/-- Answers of the operating system.  `openResult` is what
`open(I2C_DEVICE, O_RDWR)` returns, `ioctlResult file addr` what
`ioctl(file, I2C_SLAVE, addr)` returns, and `writeResult history file reg value`
what `write(file, [reg, value], 2)` returns after the actions in `history`;
a write may thus succeed or fail depending on anything that happened before. -/
structure Env where
  openResult : Int
  ioctlResult : Int → Int → Int
  writeResult : World → Int → Nat → Nat → Int

/-- Conversion of a C `int` argument to a `uint8_t` parameter. -/
def toUInt8 (x : Int) : Nat := (x % 256).toNat

/-- Append one action to the record. -/
def emit (e : Event) : StateM World Unit :=
  modify fun w => w ++ [e]

/-! ## The program -/

/-- Source `wiringPiI2CSetup`: open the bus, bind the slave address; returns
the file descriptor or -1. -/
def wiringPiI2CSetup (env : Env) (deviceAddress : Int) : StateM World Int := do
  let device := I2C_DEVICE
  let file := env.openResult
  emit (Event.sysOpen device)
  if file < 0 then
    emit (Event.perror Diag.failedOpen)
    return -1
  else
    let r := env.ioctlResult file deviceAddress
    emit (Event.sysIoctl file deviceAddress)
    if r < 0 then
      emit (Event.perror Diag.failedSlaveAddress)
      emit (Event.sysClose file)
      return -1
    else
      return file

/-- Source `wiringPiI2CWriteReg8`: one two-byte `write`; 0 on success, -1
when the call did not transfer exactly two bytes. -/
def wiringPiI2CWriteReg8 (env : Env) (file : Int) (reg value : Nat) : StateM World Int := do
  let history ← get
  let n := env.writeResult history file reg value
  emit (Event.sysWrite file reg value)
  if n ≠ 2 then
    emit (Event.perror Diag.failedWrite)
    return -1
  else
    return 0

/-- Source `writeRegister`: write, and report (but do not propagate) a
failure. -/
def writeRegister (env : Env) (fd reg value : Int) : StateM World Unit := do
  let r ← wiringPiI2CWriteReg8 env fd (toUInt8 reg) (toUInt8 value)
  if r = -1 then
    emit (Event.cerr (Diag.regWriteError reg))
  else
    return ()

/-- Source `main`, with the active profile (ATARI PAL 1.773447 MHz). -/
def main (env : Env) : StateM World Int := do
  let fd ← wiringPiI2CSetup env SI5351_ADDRESS
  if fd = -1 then
    emit (Event.cerr Diag.initError)
    return 1
  else
    -- Disable Outputs
    writeRegister env fd SI5351_REGISTER_3_OUTPUT_ENABLE_CONTROL 0xFF
    -- Powerup only output #0
    writeRegister env fd SI5351_REGISTER_16_CLK0_CONTROL 0x4F
    writeRegister env fd SI5351_REGISTER_17_CLK1_CONTROL 0x80
    writeRegister env fd SI5351_REGISTER_18_CLK2_CONTROL 0x80
    writeRegister env fd SI5351_REGISTER_19_CLK3_CONTROL 0x80
    writeRegister env fd SI5351_REGISTER_20_CLK4_CONTROL 0x80
    writeRegister env fd SI5351_REGISTER_21_CLK5_CONTROL 0x80
    writeRegister env fd SI5351_REGISTER_22_CLK6_CONTROL 0x80
    writeRegister env fd SI5351_REGISTER_23_CLK7_CONTROL 0x80
    writeRegister env fd SI5351_REGISTER_24_CLK3_0_DISABLE_STATE 0x00
    writeRegister env fd SI5351_REGISTER_25_CLK7_4_DISABLE_STATE 0x00
    -- ATARI PAL: 1.773447000 Mhz
    writeRegister env fd SI5351_REGISTER_26_PLL_A_REG0 0xd0
    writeRegister env fd SI5351_REGISTER_27_PLL_A_REG1 0x90
    writeRegister env fd SI5351_REGISTER_28_PLL_A_REG2 0x00
    writeRegister env fd SI5351_REGISTER_29_PLL_A_REG3 0x0b
    writeRegister env fd SI5351_REGISTER_30_PLL_A_REG4 0xf9
    writeRegister env fd SI5351_REGISTER_31_PLL_A_REG5 0x32
    writeRegister env fd SI5351_REGISTER_32_PLL_A_REG6 0x0e
    writeRegister env fd SI5351_REGISTER_33_PLL_A_REG7 0x70
    writeRegister env fd SI5351_REGISTER_42_MULTISYNTH0_PARAMETERS_1 0x00
    writeRegister env fd SI5351_REGISTER_43_MULTISYNTH0_PARAMETERS_2 0x01
    writeRegister env fd SI5351_REGISTER_44_MULTISYNTH0_PARAMETERS_3 0x00
    writeRegister env fd SI5351_REGISTER_45_MULTISYNTH0_PARAMETERS_4 0xc3
    writeRegister env fd SI5351_REGISTER_46_MULTISYNTH0_PARAMETERS_5 0x00
    writeRegister env fd SI5351_REGISTER_47_MULTISYNTH0_PARAMETERS_6 0x00
    writeRegister env fd SI5351_REGISTER_48_MULTISYNTH0_PARAMETERS_7 0x00
    writeRegister env fd SI5351_REGISTER_49_MULTISYNTH0_PARAMETERS_8 0x00
    -- Apply PLLA and PLLB soft reset
    writeRegister env fd SI5351_REGISTER_177_PLL_RESET 0xAC
    -- Enable desired outputs
    writeRegister env fd SI5351_REGISTER_3_OUTPUT_ENABLE_CONTROL 0
    emit (Event.cout Diag.setupCompleted)
    return 0

/-! ## Observations of a run -/

/-- One run of the program from an empty record: exit status and trace. -/
def runMain (env : Env) : Int × World := (main env).run []

/-- Exit status of a run. -/
def exitStatus (env : Env) : Int := (runMain env).1

/-- Trace of a run. -/
def traceOf (env : Env) : World := (runMain env).2

/-- The register writes handed to the transport, as (register, value) pairs in
the order of the `write` calls of a trace. -/
def writesOf : World → List (Nat × Nat)
  | [] => []
  | Event.sysWrite _ reg value :: rest => (reg, value) :: writesOf rest
  | _ :: rest => writesOf rest

/-- Whether `wiringPiI2CSetup` succeeds in `env`: the bus device opens and
the slave address is bound. -/
def setupSucceeds (env : Env) : Prop :=
  0 ≤ env.openResult ∧ 0 ≤ env.ioctlResult env.openResult SI5351_ADDRESS

instance (env : Env) : Decidable (setupSucceeds env) :=
  inferInstanceAs (Decidable (_ ∧ _))

/-- Whether every `write` call answers 2 (both bytes transferred). -/
def allWritesSucceed (env : Env) : Prop :=
  ∀ history file reg value, env.writeResult history file reg value = 2

/-- An environment in which the bus opens as descriptor 3 and every write
transfers both bytes. -/
def envAllOk : Env :=
  { openResult := 3, ioctlResult := fun _ _ => 0, writeResult := fun _ _ _ _ => 2 }

/-- An environment in which the bus device cannot be opened. -/
def envOpenFails : Env :=
  { envAllOk with openResult := -1 }

/-- An environment in which the bus opens as descriptor 3 but binding the
slave address fails. -/
def envIoctlFails : Env :=
  { envAllOk with ioctlResult := fun _ _ => -1 }

/-- An environment in which the bus opens and exactly the write to register
29 transfers one byte instead of two. -/
def envWrite29Fails : Env :=
  { envAllOk with writeResult := fun _ _ reg _ => if reg = 29 then 1 else 2 }

/-- The descriptors passed to `close`, in order. -/
def closesOf : World → List Int
  | [] => []
  | Event.sysClose file :: rest => file :: closesOf rest
  | _ :: rest => closesOf rest

/-- Membership of a register address in the PLL-A block (26 to 33) or the
Multisynth-0 block (42 to 49). -/
def isDividerReg (reg : Nat) : Bool :=
  (26 ≤ reg && reg ≤ 33) || (42 ≤ reg && reg ≤ 49)

/-- The values written to the registers `lo` to `hi`, in the order written. -/
def bytesAt (lo hi : Nat) (ws : List (Nat × Nat)) : List Nat :=
  (ws.filter fun w => lo ≤ w.1 && w.1 ≤ hi).map Prod.snd

/-! ## Device model

The chip seen as a register file: a successful write sets the addressed
register and nothing else. -/

/-- Register file of the chip: register address to byte. -/
abbrev Device := Nat → Nat

/-- Effect of one successful register write. -/
def applyWrite (d : Device) (w : Nat × Nat) : Device :=
  fun a => if a = w.1 then w.2 else d a

/-- Register file after the chip has seen the actions of a trace.  A `write`
call that transferred both bytes sets the addressed register; a `write` call
followed by its failure report leaves the register file as it was. -/
def deviceAfter : World → Device → Device
  | [], d => d
  | Event.sysWrite _ _ _ :: Event.perror Diag.failedWrite :: rest, d => deviceAfter rest d
  | Event.sysWrite _ reg value :: rest, d => deviceAfter rest (applyWrite d (reg, value))
  | _ :: rest, d => deviceAfter rest d

/-- The value the last write to register `a` in a list of writes leaves
there, if the list writes `a` at all. -/
def lastWrite : List (Nat × Nat) → Nat → Option Nat
  | [], _ => none
  | w :: rest, a =>
      match lastWrite rest a with
      | some v => some v
      | none => if a = w.1 then some w.2 else none

/-! ## SI5351 divider register packing

The eight bytes `b0 .. b7` of a PLL or multisynth parameter block hold three
integers `P1`, `P2`, `P3`; the divider is `(P1 + 512 + P2 / P3) / 128`. -/

/-- Byte `i` of a parameter block. -/
def byteOf (b : List Nat) (i : Nat) : Nat := b.getD i 0

/-- Parameter `P3 = (b5 >> 4) << 16 | b0 << 8 | b1`. -/
def decodeP3 (b : List Nat) : Nat :=
  ((byteOf b 5 >>> 4) <<< 16) ||| (byteOf b 0 <<< 8) ||| byteOf b 1

/-- Parameter `P1 = (b2 & 3) << 16 | b3 << 8 | b4`. -/
def decodeP1 (b : List Nat) : Nat :=
  ((byteOf b 2 &&& 3) <<< 16) ||| (byteOf b 3 <<< 8) ||| byteOf b 4

/-- Parameter `P2 = (b5 & 15) << 16 | b6 << 8 | b7`. -/
def decodeP2 (b : List Nat) : Nat :=
  ((byteOf b 5 &&& 15) <<< 16) ||| (byteOf b 6 <<< 8) ||| byteOf b 7

/-- Divider ratio `(P1 + 512 + P2 / P3) / 128`, as an exact rational. -/
def decodeRatio (b : List Nat) : ℚ :=
  ((decodeP1 b : ℚ) + 512 + (decodeP2 b : ℚ) / (decodeP3 b : ℚ)) / 128

/-- Output frequency in hertz for a reference of `refHz`, a PLL parameter
block, a multisynth parameter block and an R divider. -/
def outputHz (refHz : ℚ) (pll ms : List Nat) (rDiv : ℚ) : ℚ :=
  refHz * decodeRatio pll / decodeRatio ms / rDiv

/-! ## Frequency profiles

The active register table of `main` and the tables kept disabled beside it,
each with the frequency plan written above it in the source. -/

/-- One register table of the source with its documented plan: the eight
bytes for registers 26 to 33, the eight bytes for registers 42 to 49, the
documented feedback divider `feedbackInt + feedbackNum / feedbackDen`, the
documented multisynth divider and the documented output frequency in MHz. -/
structure Profile where
  pllA : List Nat
  ms0 : List Nat
  feedbackInt : Nat
  feedbackNum : Nat
  feedbackDen : Nat
  multisynthDivider : Nat
  outputMHz : ℚ

/-- The documented feedback divider as a rational. -/
def Profile.feedback (p : Profile) : ℚ :=
  (p.feedbackInt : ℚ) + (p.feedbackNum : ℚ) / (p.feedbackDen : ℚ)

/-- Disabled table "Test frequency: 10MHz". -/
def test10MHz : Profile :=
  { pllA := [0x00, 0x01, 0x00, 0x0e, 0x00, 0x00, 0x00, 0x00],
    ms0 := [0x00, 0x01, 0x00, 0x26, 0x00, 0x00, 0x00, 0x00],
    feedbackInt := 32, feedbackNum := 0, feedbackDen := 1,
    multisynthDivider := 80, outputMHz := 10 }

/-- Active table "ATARI PAL: 1.773447000 Mhz". -/
def atariPal1773447 : Profile :=
  { pllA := [0xd0, 0x90, 0x00, 0x0b, 0xf9, 0x32, 0x0e, 0x70],
    ms0 := [0x00, 0x01, 0x00, 0xc3, 0x00, 0x00, 0x00, 0x00],
    feedbackInt := 27, feedbackNum := 237381, feedbackDen := 250000,
    multisynthDivider := 394, outputMHz := 1773447 / 1000000 }

/-- Disabled table "ATARI PAL: 3.546894 Mhz". -/
def atariPal3546894 : Profile :=
  { pllA := [0x13, 0x88, 0x00, 0x0c, 0x0b, 0x00, 0x0d, 0xa8],
    ms0 := [0x00, 0x01, 0x00, 0x61, 0x00, 0x00, 0x00, 0x00],
    feedbackInt := 28, feedbackNum := 457, feedbackDen := 5000,
    multisynthDivider := 198, outputMHz := 3546894 / 1000000 }

/-- Disabled table "ATARI PAL: 14.187576 MHz". -/
def atariPal14187576 : Profile :=
  { pllA := [0xf4, 0x24, 0x00, 0x0c, 0x30, 0x00, 0x04, 0xc0],
    ms0 := [0x00, 0x01, 0x00, 0x17, 0x00, 0x00, 0x00, 0x00],
    feedbackInt := 28, feedbackNum := 23447, feedbackDen := 62500,
    multisynthDivider := 50, outputMHz := 14187576 / 1000000 }

/-- Disabled table "ATARI 400/800 NTSC: 1.7897875 MHz". -/
def atari400800Ntsc17897875 : Profile :=
  { pllA := [0x0d, 0x40, 0x00, 0x0b, 0xf5, 0x32, 0x96, 0x40],
    ms0 := [0x00, 0x01, 0x00, 0xc1, 0x00, 0x00, 0x00, 0x00],
    feedbackInt := 27, feedbackNum := 184137, feedbackDen := 200000,
    multisynthDivider := 390, outputMHz := 17897875 / 10000000 }

/-- Disabled table "ATARI 400/800 NTSC: 3.579575 MHz". -/
def atari400800Ntsc3579575 : Profile :=
  { pllA := [0xd0, 0x90, 0x00, 0x0c, 0x08, 0x30, 0xab, 0x00],
    ms0 := [0x00, 0x01, 0x00, 0x60, 0x00, 0x00, 0x00, 0x00],
    feedbackInt := 28, feedbackNum := 15967, feedbackDen := 250000,
    multisynthDivider := 196, outputMHz := 3579575 / 1000000 }

/-- Disabled table "ATARI XL/XE NTSC: 1.7897725 Mhz". -/
def atariXlXeNtsc17897725 : Profile :=
  { pllA := [0x42, 0x40, 0x00, 0x0b, 0xf5, 0xfc, 0x7a, 0x40],
    ms0 := [0x00, 0x01, 0x00, 0xc1, 0x00, 0x00, 0x00, 0x00],
    feedbackInt := 27, feedbackNum := 920451, feedbackDen := 1000000,
    multisynthDivider := 390, outputMHz := 17897725 / 10000000 }

/-- Disabled table "ATARI XL/XE NTSC: 3.579545 Mhz". -/
def atariXlXeNtsc3579545 : Profile :=
  { pllA := [0xf4, 0x24, 0x00, 0x0c, 0x08, 0x00, 0x23, 0x60],
    ms0 := [0x00, 0x01, 0x00, 0x60, 0x00, 0x00, 0x00, 0x00],
    feedbackInt := 28, feedbackNum := 3977, feedbackDen := 62500,
    multisynthDivider := 196, outputMHz := 3579545 / 1000000 }

/-- Disabled table "ATARI XL/XE NTSC: 14.31818 Mhz". -/
def atariXlXeNtsc1431818 : Profile :=
  { pllA := [0x31, 0x2d, 0x00, 0x0b, 0xbe, 0x10, 0xff, 0x1a],
    ms0 := [0x00, 0x01, 0x00, 0x16, 0x00, 0x00, 0x00, 0x00],
    feedbackInt := 27, feedbackNum := 38352, feedbackDen := 78125,
    multisynthDivider := 48, outputMHz := 1431818 / 100000 }

/-- Disabled table "ATARI PAL crystal: 4.433618 MHz". -/
def atariPalCrystal4433618 : Profile :=
  { pllA := [0x89, 0x68, 0x00, 0x0c, 0x02, 0x95, 0xe8, 0xb0],
    ms0 := [0x00, 0x01, 0x00, 0x4d, 0x00, 0x00, 0x00, 0x00],
    feedbackInt := 28, feedbackNum := 12791, feedbackDen := 625000,
    multisynthDivider := 158, outputMHz := 4433618 / 1000000 }

/-- Disabled table "ATARI XF551 crystal: 8.3333 Mhz". -/
def atariXf551Crystal83333 : Profile :=
  { pllA := [0xe8, 0x48, 0x00, 0x0c, 0x55, 0x10, 0x9b, 0x98],
    ms0 := [0x00, 0x01, 0x00, 0x29, 0x00, 0x00, 0x00, 0x00],
    feedbackInt := 28, feedbackNum := 83319, feedbackDen := 125000,
    multisynthDivider := 86, outputMHz := 83333 / 10000 }

/-- The nine alternate profiles, in source order. -/
def alternateProfiles : List Profile :=
  [atariPal3546894, atariPal14187576, atari400800Ntsc17897875, atari400800Ntsc3579575,
   atariXlXeNtsc17897725, atariXlXeNtsc3579545, atariXlXeNtsc1431818, atariPalCrystal4433618,
   atariXf551Crystal83333]

/-! ## Clock control byte and multisynth third byte

Bit fields of a CLKx control register (registers 16 to 23) and of the third
byte of a multisynth parameter block (register 44 for Multisynth 0). -/

/-- Bit 7 of a clock control byte: the channel is powered down. -/
def clkPoweredDown (b : Nat) : Bool := b.testBit 7

/-- Bit 6 of a clock control byte: the multisynth runs in integer mode. -/
def msIntegerMode (b : Nat) : Bool := b.testBit 6

/-- Bit 5 of a clock control byte: the multisynth source is PLL B (clear:
PLL A). -/
def msSourcePllB (b : Nat) : Bool := b.testBit 5

/-- Bit 4 of a clock control byte: the output is inverted. -/
def clkInverted (b : Nat) : Bool := b.testBit 4

/-- Bits 3:2 of a clock control byte: the clock source. -/
def clkSource (b : Nat) : Nat := (b >>> 2) &&& 3

/-- Bits 1:0 of a clock control byte: the drive strength. -/
def clkDriveStrength (b : Nat) : Nat := b &&& 3

/-- Bits 6:4 of the third byte of a multisynth block: the R divider field. -/
def rDivField (b : List Nat) : Nat := (byteOf b 2 >>> 4) &&& 7

/-- Bits 3:2 of the third byte of a multisynth block: the divide-by-4 field. -/
def divBy4Field (b : List Nat) : Nat := (byteOf b 2 >>> 2) &&& 3

/-- The channel-0 settings written above every register table of the source:
"PLL source = PLLA", "Powered down = No", "Inverted = No",
"Drive Strength = b11", "Clock Source = b11". -/
structure ChannelPlan where
  pllSourceB : Bool
  poweredDown : Bool
  inverted : Bool
  driveStrength : Nat
  clockSource : Nat
  deriving DecidableEq, Repr

/-- The documented channel-0 plan. -/
def channel0Plan : ChannelPlan :=
  { pllSourceB := false, poweredDown := false, inverted := false,
    driveStrength := 0b11, clockSource := 0b11 }

/-- The plan a clock control byte encodes. -/
def ChannelPlan.ofByte (b : Nat) : ChannelPlan :=
  { pllSourceB := msSourcePllB b, poweredDown := clkPoweredDown b, inverted := clkInverted b,
    driveStrength := clkDriveStrength b, clockSource := clkSource b }

/-- The registers a trace writes, in order. -/
def registersOf (t : World) : List Nat := (writesOf t).map Prod.fst

/-! ## Auxiliary definitions for the proofs -/

/-- The (register, value) sequence of the end-to-end scenario. -/
def scenarioWrites : List (Nat × Nat) :=
  [(3, 0xFF),
   (16, 0x4F), (17, 0x80), (18, 0x80), (19, 0x80), (20, 0x80), (21, 0x80), (22, 0x80), (23, 0x80),
   (24, 0x00), (25, 0x00),
   (26, 0xd0), (27, 0x90), (28, 0x00), (29, 0x0b), (30, 0xf9), (31, 0x32), (32, 0x0e), (33, 0x70),
   (42, 0x00), (43, 0x01), (44, 0x00), (45, 0xc3), (46, 0x00), (47, 0x00), (48, 0x00), (49, 0x00),
   (177, 0xAC),
   (3, 0x00)]

/-- What `writeRegister` prints after its `write` call: nothing when both
bytes were transferred, the two error lines otherwise. -/
def writeReport (env : Env) (w : World) (fd reg value : Int) : World :=
  if env.writeResult w fd (toUInt8 reg) (toUInt8 value) ≠ 2 then
    [Event.perror Diag.failedWrite, Event.cerr (Diag.regWriteError reg)]
  else []

/-! ## Stepping lemmas -/

theorem bind_run {α β : Type} (m : StateM World α) (f : α → StateM World β) (w : World) :
    (m >>= f).run w = (f (m.run w).1).run (m.run w).2 := rfl

theorem writeRegister_run (env : Env) (fd reg value : Int) (w : World) :
    (writeRegister env fd reg value).run w
      = ((), w ++ Event.sysWrite fd (toUInt8 reg) (toUInt8 value)
                :: writeReport env w fd reg value) := by
  unfold writeRegister wiringPiI2CWriteReg8 writeReport emit
  by_cases h : env.writeResult w fd (toUInt8 reg) (toUInt8 value) = 2
  · simp [h, StateT.run, bind, StateT.bind, get, getThe, MonadStateOf.get, StateT.get, modify,
      modifyGet, MonadStateOf.modifyGet, StateT.modifyGet, pure, StateT.pure]
  · simp [h, StateT.run, bind, StateT.bind, get, getThe, MonadStateOf.get, StateT.get, modify,
      modifyGet, MonadStateOf.modifyGet, StateT.modifyGet, pure, StateT.pure]

theorem writeRegister_bind_run {α : Type} (env : Env) (fd reg value : Int) (w : World)
    (f : Unit → StateM World α) :
    (writeRegister env fd reg value >>= f).run w
      = (f ()).run (w ++ Event.sysWrite fd (toUInt8 reg) (toUInt8 value)
                :: writeReport env w fd reg value) := by
  rw [bind_run, writeRegister_run]

theorem setup_run_ok (env : Env) (w : World) (h : setupSucceeds env) :
    (wiringPiI2CSetup env SI5351_ADDRESS).run w
      = (env.openResult,
          w ++ [Event.sysOpen I2C_DEVICE, Event.sysIoctl env.openResult SI5351_ADDRESS]) := by
  obtain ⟨h1, h2⟩ := h
  simp [wiringPiI2CSetup, emit, not_lt.mpr h1, not_lt.mpr h2, StateT.run, bind, StateT.bind,
    modify, modifyGet, MonadStateOf.modifyGet, StateT.modifyGet, pure, StateT.pure]

theorem setup_run_open_fail (env : Env) (w : World) (h : env.openResult < 0) :
    (wiringPiI2CSetup env SI5351_ADDRESS).run w
      = (-1, w ++ [Event.sysOpen I2C_DEVICE, Event.perror Diag.failedOpen]) := by
  simp [wiringPiI2CSetup, emit, h, StateT.run, bind, StateT.bind, modify, modifyGet,
    MonadStateOf.modifyGet, StateT.modifyGet, pure, StateT.pure]

theorem setup_run_ioctl_fail (env : Env) (w : World) (h1 : 0 ≤ env.openResult)
    (h2 : env.ioctlResult env.openResult SI5351_ADDRESS < 0) :
    (wiringPiI2CSetup env SI5351_ADDRESS).run w
      = (-1, w ++ [Event.sysOpen I2C_DEVICE, Event.sysIoctl env.openResult SI5351_ADDRESS,
            Event.perror Diag.failedSlaveAddress, Event.sysClose env.openResult]) := by
  simp [wiringPiI2CSetup, emit, not_lt.mpr h1, h2, StateT.run, bind, StateT.bind, modify,
    modifyGet, MonadStateOf.modifyGet, StateT.modifyGet, pure, StateT.pure]

theorem not_setupSucceeds_iff (env : Env) :
    ¬ setupSucceeds env ↔
      (env.openResult < 0 ∨
        (0 ≤ env.openResult ∧ env.ioctlResult env.openResult SI5351_ADDRESS < 0)) := by
  unfold setupSucceeds
  constructor
  · intro h
    by_cases h1 : 0 ≤ env.openResult
    · right
      exact ⟨h1, not_le.mp fun h2 => h ⟨h1, h2⟩⟩
    · left
      exact not_le.mp h1
  · rintro (h | ⟨_, h⟩) ⟨h1, h2⟩
    · exact absurd h1 (not_le.mpr h)
    · exact absurd h2 (not_le.mpr h)

/-! ## Projections of a trace -/

theorem writesOf_append (a b : World) : writesOf (a ++ b) = writesOf a ++ writesOf b := by
  induction a with
  | nil => rfl
  | cons e rest ih => cases e <;> simp [writesOf, ih]

theorem writesOf_sysWrite (file : Int) (reg value : Nat) (rest : World) :
    writesOf (Event.sysWrite file reg value :: rest) = (reg, value) :: writesOf rest := rfl

theorem writesOf_writeReport (env : Env) (w : World) (fd reg value : Int) :
    writesOf (writeReport env w fd reg value) = [] := by
  unfold writeReport; split <;> rfl

theorem closesOf_append (a b : World) : closesOf (a ++ b) = closesOf a ++ closesOf b := by
  induction a with
  | nil => rfl
  | cons e rest ih => cases e <;> simp [closesOf, ih]

theorem closesOf_sysWrite (file : Int) (reg value : Nat) (rest : World) :
    closesOf (Event.sysWrite file reg value :: rest) = closesOf rest := rfl

theorem closesOf_writeReport (env : Env) (w : World) (fd reg value : Int) :
    closesOf (writeReport env w fd reg value) = [] := by
  unfold writeReport; split <;> rfl

/-! ## The runs of `main` -/

/-- When the bus cannot be opened, `main` stops after the two error lines. -/
theorem runMain_open_fail (env : Env) (h : env.openResult < 0) :
    runMain env
      = (1, [Event.sysOpen I2C_DEVICE, Event.perror Diag.failedOpen,
            Event.cerr Diag.initError]) := by
  unfold runMain main
  rw [bind_run, setup_run_open_fail env [] h]
  rfl

/-- When the slave address cannot be bound, the descriptor is closed and
`main` stops. -/
theorem runMain_ioctl_fail (env : Env) (h1 : 0 ≤ env.openResult)
    (h2 : env.ioctlResult env.openResult SI5351_ADDRESS < 0) :
    runMain env
      = (1, [Event.sysOpen I2C_DEVICE, Event.sysIoctl env.openResult SI5351_ADDRESS,
            Event.perror Diag.failedSlaveAddress, Event.sysClose env.openResult,
            Event.cerr Diag.initError]) := by
  unfold runMain main
  rw [bind_run, setup_run_ioctl_fail env [] h1 h2]
  rfl

/-- When the bus opens, `main` returns 0, hands the transport the scenario
sequence whatever the writes answer, and closes nothing. -/
theorem runMain_ok (env : Env) (h : setupSucceeds env) :
    exitStatus env = 0 ∧ writesOf (traceOf env) = scenarioWrites ∧
      closesOf (traceOf env) = [] := by
  have hfd : env.openResult ≠ -1 := by
    have := h.1; omega
  unfold exitStatus traceOf runMain main
  rw [bind_run, setup_run_ok env [] h]
  simp only [hfd, if_false, writeRegister_bind_run]
  refine ⟨rfl, ?_, ?_⟩
  · show writesOf (_ ++ [Event.cout Diag.setupCompleted]) = _
    simp only [writesOf_append, writesOf_sysWrite, writesOf_writeReport]
    simp [writesOf, toUInt8, scenarioWrites, SI5351_REGISTER_3_OUTPUT_ENABLE_CONTROL,
      SI5351_REGISTER_16_CLK0_CONTROL, SI5351_REGISTER_17_CLK1_CONTROL,
      SI5351_REGISTER_18_CLK2_CONTROL, SI5351_REGISTER_19_CLK3_CONTROL,
      SI5351_REGISTER_20_CLK4_CONTROL, SI5351_REGISTER_21_CLK5_CONTROL,
      SI5351_REGISTER_22_CLK6_CONTROL, SI5351_REGISTER_23_CLK7_CONTROL,
      SI5351_REGISTER_24_CLK3_0_DISABLE_STATE, SI5351_REGISTER_25_CLK7_4_DISABLE_STATE,
      SI5351_REGISTER_26_PLL_A_REG0, SI5351_REGISTER_27_PLL_A_REG1, SI5351_REGISTER_28_PLL_A_REG2,
      SI5351_REGISTER_29_PLL_A_REG3, SI5351_REGISTER_30_PLL_A_REG4, SI5351_REGISTER_31_PLL_A_REG5,
      SI5351_REGISTER_32_PLL_A_REG6, SI5351_REGISTER_33_PLL_A_REG7,
      SI5351_REGISTER_42_MULTISYNTH0_PARAMETERS_1, SI5351_REGISTER_43_MULTISYNTH0_PARAMETERS_2,
      SI5351_REGISTER_44_MULTISYNTH0_PARAMETERS_3, SI5351_REGISTER_45_MULTISYNTH0_PARAMETERS_4,
      SI5351_REGISTER_46_MULTISYNTH0_PARAMETERS_5, SI5351_REGISTER_47_MULTISYNTH0_PARAMETERS_6,
      SI5351_REGISTER_48_MULTISYNTH0_PARAMETERS_7, SI5351_REGISTER_49_MULTISYNTH0_PARAMETERS_8,
      SI5351_REGISTER_177_PLL_RESET]
  · show closesOf (_ ++ [Event.cout Diag.setupCompleted]) = _
    simp only [closesOf_append, closesOf_sysWrite, closesOf_writeReport]
    simp [closesOf]

/-- A run in which the setup fails performs no register write and returns 1. -/
theorem runMain_setup_fail (env : Env) (h : ¬ setupSucceeds env) :
    exitStatus env = 1 ∧ writesOf (traceOf env) = [] := by
  rcases (not_setupSucceeds_iff env).mp h with h1 | ⟨h1, h2⟩
  · unfold exitStatus traceOf
    rw [runMain_open_fail env h1]
    exact ⟨rfl, rfl⟩
  · unfold exitStatus traceOf
    rw [runMain_ioctl_fail env h1 h2]
    exact ⟨rfl, rfl⟩

theorem setupSucceeds_envAllOk : setupSucceeds envAllOk := by decide

theorem allWritesSucceed_envAllOk : allWritesSucceed envAllOk := fun _ _ _ _ => rfl

theorem writeReport_of_success (env : Env) (h : allWritesSucceed env) (w : World)
    (fd reg value : Int) : writeReport env w fd reg value = [] := by
  unfold writeReport
  rw [if_neg]
  exact not_not.mpr (h w fd (toUInt8 reg) (toUInt8 value))

/-- When the bus opens and every write succeeds, the whole record of the run
is the two setup calls, the scenario writes on the opened descriptor, and
the completion message. -/
theorem traceOf_all_ok (env : Env) (h : setupSucceeds env) (hw : allWritesSucceed env) :
    traceOf env
      = Event.sysOpen I2C_DEVICE :: Event.sysIoctl env.openResult SI5351_ADDRESS
          :: (scenarioWrites.map fun w => Event.sysWrite env.openResult w.1 w.2)
          ++ [Event.cout Diag.setupCompleted] := by
  have hfd : env.openResult ≠ -1 := by
    have := h.1; omega
  unfold traceOf runMain main
  rw [bind_run, setup_run_ok env [] h]
  simp only [hfd, if_false, writeRegister_bind_run, writeReport_of_success env hw]
  show _ ++ [Event.cout Diag.setupCompleted] = _
  simp [toUInt8, scenarioWrites, SI5351_REGISTER_3_OUTPUT_ENABLE_CONTROL,
    SI5351_REGISTER_16_CLK0_CONTROL, SI5351_REGISTER_17_CLK1_CONTROL,
    SI5351_REGISTER_18_CLK2_CONTROL, SI5351_REGISTER_19_CLK3_CONTROL,
    SI5351_REGISTER_20_CLK4_CONTROL, SI5351_REGISTER_21_CLK5_CONTROL,
    SI5351_REGISTER_22_CLK6_CONTROL, SI5351_REGISTER_23_CLK7_CONTROL,
    SI5351_REGISTER_24_CLK3_0_DISABLE_STATE, SI5351_REGISTER_25_CLK7_4_DISABLE_STATE,
    SI5351_REGISTER_26_PLL_A_REG0, SI5351_REGISTER_27_PLL_A_REG1, SI5351_REGISTER_28_PLL_A_REG2,
    SI5351_REGISTER_29_PLL_A_REG3, SI5351_REGISTER_30_PLL_A_REG4, SI5351_REGISTER_31_PLL_A_REG5,
    SI5351_REGISTER_32_PLL_A_REG6, SI5351_REGISTER_33_PLL_A_REG7,
    SI5351_REGISTER_42_MULTISYNTH0_PARAMETERS_1, SI5351_REGISTER_43_MULTISYNTH0_PARAMETERS_2,
    SI5351_REGISTER_44_MULTISYNTH0_PARAMETERS_3, SI5351_REGISTER_45_MULTISYNTH0_PARAMETERS_4,
    SI5351_REGISTER_46_MULTISYNTH0_PARAMETERS_5, SI5351_REGISTER_47_MULTISYNTH0_PARAMETERS_6,
    SI5351_REGISTER_48_MULTISYNTH0_PARAMETERS_7, SI5351_REGISTER_49_MULTISYNTH0_PARAMETERS_8,
    SI5351_REGISTER_177_PLL_RESET]

/-! ## The claims -/

/-- C1: when the bus opens and every write succeeds, `main` binds device
address 0x60 and hands the transport exactly the 29 (register, value) writes
of the end-to-end scenario, in that order and on the opened descriptor, and
nothing else: the record of the run is `open`, `ioctl`, these writes and the
completion message. -/
theorem C1_main_write_sequence (env : Env) (hopen : setupSucceeds env)
    (hwrites : allWritesSucceed env) :
    writesOf (traceOf env)
        = [(3, 0xFF),
           (16, 0x4F), (17, 0x80), (18, 0x80), (19, 0x80), (20, 0x80), (21, 0x80), (22, 0x80),
           (23, 0x80),
           (24, 0x00), (25, 0x00),
           (26, 0xd0), (27, 0x90), (28, 0x00), (29, 0x0b), (30, 0xf9), (31, 0x32), (32, 0x0e),
           (33, 0x70),
           (42, 0x00), (43, 0x01), (44, 0x00), (45, 0xc3), (46, 0x00), (47, 0x00), (48, 0x00),
           (49, 0x00),
           (177, 0xAC),
           (3, 0x00)]
      ∧ traceOf env
        = Event.sysOpen I2C_DEVICE :: Event.sysIoctl env.openResult 0x60
            :: (writesOf (traceOf env)).map (fun w => Event.sysWrite env.openResult w.1 w.2)
            ++ [Event.cout Diag.setupCompleted] := by
  have hw := (runMain_ok env hopen).2.1
  refine ⟨hw, ?_⟩
  rw [hw]
  exact traceOf_all_ok env hopen hwrites

/-- Witness for C1 in the environment where the bus opens as descriptor 3 and
every write transfers both bytes. -/
theorem C1_main_write_sequence_witness :
    setupSucceeds envAllOk ∧ allWritesSucceed envAllOk ∧
      (writesOf (traceOf envAllOk)).length = 29 ∧
      traceOf envAllOk
        = Event.sysOpen I2C_DEVICE :: Event.sysIoctl 3 0x60
            :: (writesOf (traceOf envAllOk)).map (fun w => Event.sysWrite 3 w.1 w.2)
            ++ [Event.cout Diag.setupCompleted] :=
  ⟨setupSucceeds_envAllOk, allWritesSucceed_envAllOk,
    by rw [(C1_main_write_sequence envAllOk setupSucceeds_envAllOk
        allWritesSucceed_envAllOk).1]; rfl,
    (C1_main_write_sequence envAllOk setupSucceeds_envAllOk allWritesSucceed_envAllOk).2⟩

/-- C2, counterexample: in the run where the bus opens and every write
succeeds, 13 writes (not 18) fall outside the two divider groups and 29
writes (not 26) are issued in all. -/
theorem C2_write_counts_counterexample :
    setupSucceeds envAllOk ∧
      ((writesOf (traceOf envAllOk)).filter fun w => !isDividerReg w.1).length = 13 ∧
      (writesOf (traceOf envAllOk)).length = 29 ∧
      ¬ (((writesOf (traceOf envAllOk)).filter fun w => !isDividerReg w.1).length = 18 ∧
          (writesOf (traceOf envAllOk)).length = 26) := by
  have hw := (runMain_ok envAllOk setupSucceeds_envAllOk).2.1
  rw [hw]
  refine ⟨setupSucceeds_envAllOk, by decide, by decide, by decide⟩

/-- C2, amended: in every run of `main` where the bus opens, whatever the
writes answer, the number of register writes outside the PLL-A (26 to 33) and
Multisynth-0 (42 to 49) groups is thirteen, sixteen writes fall inside the two
groups, and 29 writes are issued in all. -/
theorem C2_write_counts (env : Env) (hopen : setupSucceeds env) :
    ((writesOf (traceOf env)).filter fun w => !isDividerReg w.1).length = 13 ∧
      ((writesOf (traceOf env)).filter fun w => isDividerReg w.1).length = 16 ∧
      (writesOf (traceOf env)).length = 29 := by
  rw [(runMain_ok env hopen).2.1]
  refine ⟨by decide, by decide, by decide⟩

/-- Witness for the amended C2, in a run where the write to register 29
fails. -/
theorem C2_write_counts_witness :
    setupSucceeds envWrite29Fails ∧
      ((writesOf (traceOf envWrite29Fails)).filter fun w => !isDividerReg w.1).length = 13 ∧
      ((writesOf (traceOf envWrite29Fails)).filter fun w => isDividerReg w.1).length = 16 ∧
      (writesOf (traceOf envWrite29Fails)).length = 29 :=
  ⟨by decide, C2_write_counts envWrite29Fails (by decide)⟩

theorem lt_length_of_getElem? {α : Type} {l : List α} {i : Nat} {a : α} (h : l[i]? = some a) :
    i < l.length := by
  by_contra hc
  rw [List.getElem?_eq_none (not_lt.mp hc)] at h
  cases h

set_option maxRecDepth 100000 in
theorem scenario_disable_before_dividers :
    ∀ i < 29, ∀ j < 29, (scenarioWrites[i]? = some ((3, 0xFF) : Nat × Nat) ∧
      (scenarioWrites[j]?.map fun w => isDividerReg w.1) = some true) → i < j := by
  decide

set_option maxRecDepth 100000 in
theorem scenario_dividers_before_reset :
    ∀ i < 29, ∀ j < 29, ((scenarioWrites[i]?.map fun w => isDividerReg w.1) = some true ∧
      (scenarioWrites[j]?.map Prod.fst) = some 177) → i < j := by
  decide

set_option maxRecDepth 100000 in
theorem scenario_reset_before_enable :
    ∀ i < 29, ∀ j < 29, ((scenarioWrites[i]?.map Prod.fst) = some 177 ∧
      scenarioWrites[j]? = some ((3, 0x00) : Nat × Nat)) → i < j := by
  decide

/-- C3: in the write trace of every run of `main`, whatever writes fail, every
write of 0xFF to register 3 comes strictly before every write to a divider
register (26 to 33, 42 to 49), every divider register write comes strictly
before every write to register 177, and every write to register 177 comes
strictly before every write of 0x00 to register 3; and when the bus opens the
trace does contain the output-disable write (first), the sixteen divider
writes, the PLL reset write and the output-enable write (last). -/
theorem C3_write_ordering (env : Env) :
    (∀ (i j : Nat) (w : Nat × Nat), (writesOf (traceOf env))[i]? = some (3, 0xFF) →
        (writesOf (traceOf env))[j]? = some w → isDividerReg w.1 = true → i < j) ∧
    (∀ (i j : Nat) (w : Nat × Nat) (v : Nat),
        (writesOf (traceOf env))[i]? = some w → isDividerReg w.1 = true →
        (writesOf (traceOf env))[j]? = some (177, v) → i < j) ∧
    (∀ (i j v : Nat), (writesOf (traceOf env))[i]? = some (177, v) →
        (writesOf (traceOf env))[j]? = some (3, 0x00) → i < j) ∧
    (setupSucceeds env →
      (writesOf (traceOf env))[0]? = some (3, 0xFF) ∧
      ((writesOf (traceOf env)).filter fun w => isDividerReg w.1).length = 16 ∧
      (writesOf (traceOf env))[27]? = some (177, 0xAC) ∧
      (writesOf (traceOf env))[28]? = some (3, 0x00) ∧
      (writesOf (traceOf env)).length = 29) := by
  by_cases h : setupSucceeds env
  · rw [(runMain_ok env h).2.1]
    refine ⟨?_, ?_, ?_, fun _ => ⟨rfl, by decide, rfl, rfl, rfl⟩⟩
    · intro i j w hi hj hd
      refine scenario_disable_before_dividers i (lt_length_of_getElem? hi) j
        (lt_length_of_getElem? hj) ⟨hi, ?_⟩
      rw [hj]; simp [hd]
    · intro i j w v hi hd hj
      refine scenario_dividers_before_reset i (lt_length_of_getElem? hi) j
        (lt_length_of_getElem? hj) ⟨?_, ?_⟩
      · rw [hi]; simp [hd]
      · rw [hj]; rfl
    · intro i j v hi hj
      refine scenario_reset_before_enable i (lt_length_of_getElem? hi) j
        (lt_length_of_getElem? hj) ⟨?_, hj⟩
      rw [hi]; rfl
  · rw [(runMain_setup_fail env h).2]
    refine ⟨?_, ?_, ?_, fun h2 => absurd h2 h⟩
    · intro i j w hi; simp at hi
    · intro i j w v hi; simp at hi
    · intro i j v hi; simp at hi

/-- Witness for C3 in a run where the write to register 29 fails: the
output-disable write is first, the PLL reset write is at position 27 and the
output-enable write is last. -/
theorem C3_write_ordering_witness :
    setupSucceeds envWrite29Fails ∧
      (writesOf (traceOf envWrite29Fails))[0]? = some (3, 0xFF) ∧
      ((writesOf (traceOf envWrite29Fails)).filter fun w => isDividerReg w.1).length = 16 ∧
      (writesOf (traceOf envWrite29Fails))[27]? = some (177, 0xAC) ∧
      (writesOf (traceOf envWrite29Fails))[28]? = some (3, 0x00) ∧
      (writesOf (traceOf envWrite29Fails)).length = 29 :=
  ⟨by decide, (C3_write_ordering envWrite29Fails).2.2.2 (by decide)⟩

/-- C4: if `wiringPiI2CSetup` fails (the bus device does not open, or it opens
but binding the slave address fails) it returns -1, and `main` then issues no
register write and returns exit status 1; and `main` returns 1 only in this
case. -/
theorem C4_setup_failure (env : Env) :
    ((env.openResult < 0 ∨
        (0 ≤ env.openResult ∧ env.ioctlResult env.openResult 0x60 < 0)) →
      (∀ w, ((wiringPiI2CSetup env SI5351_ADDRESS).run w).1 = -1) ∧
        writesOf (traceOf env) = [] ∧ exitStatus env = 1) ∧
    (exitStatus env = 1 →
      (env.openResult < 0 ∨
        (0 ≤ env.openResult ∧ env.ioctlResult env.openResult 0x60 < 0))) := by
  constructor
  · intro h
    have hn : ¬ setupSucceeds env := (not_setupSucceeds_iff env).mpr h
    refine ⟨fun w => ?_, (runMain_setup_fail env hn).2, (runMain_setup_fail env hn).1⟩
    rcases h with h1 | ⟨h1, h2⟩
    · rw [setup_run_open_fail env w h1]
    · rw [setup_run_ioctl_fail env w h1 h2]
  · intro h
    by_contra hc
    have hs : setupSucceeds env := by
      by_contra hn
      exact hc ((not_setupSucceeds_iff env).mp hn)
    rw [(runMain_ok env hs).1] at h
    exact absurd h (by decide)

/-- Witness for C4: both failure modes of the setup, and the converse at a
run that returns 1. -/
theorem C4_setup_failure_witness :
    (envOpenFails.openResult < 0 ∧ writesOf (traceOf envOpenFails) = [] ∧
        exitStatus envOpenFails = 1) ∧
    (0 ≤ envIoctlFails.openResult ∧
        envIoctlFails.ioctlResult envIoctlFails.openResult 0x60 < 0 ∧
        writesOf (traceOf envIoctlFails) = [] ∧ exitStatus envIoctlFails = 1) ∧
    (envIoctlFails.openResult < 0 ∨
        (0 ≤ envIoctlFails.openResult ∧
          envIoctlFails.ioctlResult envIoctlFails.openResult 0x60 < 0)) :=
  have hopen : envOpenFails.openResult < 0 := by decide
  have h1 : 0 ≤ envIoctlFails.openResult := by decide
  have h2 : envIoctlFails.ioctlResult envIoctlFails.openResult 0x60 < 0 := by decide
  ⟨⟨hopen, ((C4_setup_failure envOpenFails).1 (Or.inl hopen)).2⟩,
    ⟨h1, h2, ((C4_setup_failure envIoctlFails).1 (Or.inr ⟨h1, h2⟩)).2⟩,
    (C4_setup_failure envIoctlFails).2
      ((C4_setup_failure envIoctlFails).1 (Or.inr ⟨h1, h2⟩)).2.2⟩

/-- C5: once the bus has opened, for every pattern of write outcomes `main`
still attempts all 29 register writes, in the same order and with the same
register addresses and values as a run in which every write succeeds, and
returns exit status 0. -/
theorem C5_write_failures_not_fatal (env ref : Env) (hopen : setupSucceeds env)
    (href : setupSucceeds ref) (_hrefw : allWritesSucceed ref) :
    writesOf (traceOf env) = writesOf (traceOf ref) ∧
      (writesOf (traceOf env)).length = 29 ∧ exitStatus env = 0 := by
  have h1 := runMain_ok env hopen
  have h2 := runMain_ok ref href
  rw [h1.2.1, h2.2.1]
  exact ⟨rfl, rfl, h1.1⟩

/-- Witness for C5: a run in which the write to register 29 fails, against the
run in which every write succeeds; the failure is visible in the record. -/
theorem C5_write_failures_not_fatal_witness :
    setupSucceeds envWrite29Fails ∧ setupSucceeds envAllOk ∧ allWritesSucceed envAllOk ∧
      Event.cerr (Diag.regWriteError 29) ∈ traceOf envWrite29Fails ∧
      writesOf (traceOf envWrite29Fails) = writesOf (traceOf envAllOk) ∧
      (writesOf (traceOf envWrite29Fails)).length = 29 ∧ exitStatus envWrite29Fails = 0 :=
  ⟨by decide, setupSucceeds_envAllOk, allWritesSucceed_envAllOk, by decide,
    C5_write_failures_not_fatal envWrite29Fails envAllOk (by decide) setupSucceeds_envAllOk
      allWritesSucceed_envAllOk⟩

/-- C6: the bytes `main` writes to registers 26 to 33 are d0 90 00 0b f9 32 0e 70
and decode, by the SI5351 packing, to P1 = 3065, P2 = 134768, P3 = 250000 and
the documented feedback divider 27 + 237381/250000; the bytes it writes to
registers 42 to 49 are 00 01 00 c3 00 00 00 00 and decode to P1 = 49920,
P2 = 0, P3 = 1 and the documented output divider 394. -/
theorem C6_active_profile_decodes (env : Env) (hopen : setupSucceeds env) :
    (bytesAt 26 33 (writesOf (traceOf env))
        = [0xd0, 0x90, 0x00, 0x0b, 0xf9, 0x32, 0x0e, 0x70] ∧
      decodeP1 (bytesAt 26 33 (writesOf (traceOf env))) = 3065 ∧
      decodeP2 (bytesAt 26 33 (writesOf (traceOf env))) = 134768 ∧
      decodeP3 (bytesAt 26 33 (writesOf (traceOf env))) = 250000 ∧
      decodeRatio (bytesAt 26 33 (writesOf (traceOf env))) = 27 + 237381 / 250000 ∧
      decodeRatio (bytesAt 26 33 (writesOf (traceOf env))) = atariPal1773447.feedback) ∧
    (bytesAt 42 49 (writesOf (traceOf env))
        = [0x00, 0x01, 0x00, 0xc3, 0x00, 0x00, 0x00, 0x00] ∧
      decodeP1 (bytesAt 42 49 (writesOf (traceOf env))) = 49920 ∧
      decodeP2 (bytesAt 42 49 (writesOf (traceOf env))) = 0 ∧
      decodeP3 (bytesAt 42 49 (writesOf (traceOf env))) = 1 ∧
      decodeRatio (bytesAt 42 49 (writesOf (traceOf env))) = 394 ∧
      decodeRatio (bytesAt 42 49 (writesOf (traceOf env)))
        = (atariPal1773447.multisynthDivider : ℚ)) := by
  rw [(runMain_ok env hopen).2.1]
  have hp : bytesAt 26 33 scenarioWrites = [0xd0, 0x90, 0x00, 0x0b, 0xf9, 0x32, 0x0e, 0x70] := by
    decide
  have hm : bytesAt 42 49 scenarioWrites = [0x00, 0x01, 0x00, 0xc3, 0x00, 0x00, 0x00, 0x00] := by
    decide
  rw [hp, hm]
  have p1 : decodeP1 [0xd0, 0x90, 0x00, 0x0b, 0xf9, 0x32, 0x0e, 0x70] = 3065 := by decide
  have p2 : decodeP2 [0xd0, 0x90, 0x00, 0x0b, 0xf9, 0x32, 0x0e, 0x70] = 134768 := by decide
  have p3 : decodeP3 [0xd0, 0x90, 0x00, 0x0b, 0xf9, 0x32, 0x0e, 0x70] = 250000 := by decide
  have m1 : decodeP1 [0x00, 0x01, 0x00, 0xc3, 0x00, 0x00, 0x00, 0x00] = 49920 := by decide
  have m2 : decodeP2 [0x00, 0x01, 0x00, 0xc3, 0x00, 0x00, 0x00, 0x00] = 0 := by decide
  have m3 : decodeP3 [0x00, 0x01, 0x00, 0xc3, 0x00, 0x00, 0x00, 0x00] = 1 := by decide
  refine ⟨⟨rfl, p1, p2, p3, ?_, ?_⟩, ⟨rfl, m1, m2, m3, ?_, ?_⟩⟩
  · unfold decodeRatio; rw [p1, p2, p3]; norm_num
  · unfold decodeRatio Profile.feedback atariPal1773447; rw [p1, p2, p3]; norm_num
  · unfold decodeRatio; rw [m1, m2, m3]; norm_num
  · unfold decodeRatio atariPal1773447; rw [m1, m2, m3]; norm_num

/-- Witness for C6 in the run where every write succeeds. -/
theorem C6_active_profile_decodes_witness :
    setupSucceeds envAllOk ∧
      decodeRatio (bytesAt 26 33 (writesOf (traceOf envAllOk))) = 27 + 237381 / 250000 ∧
      decodeRatio (bytesAt 42 49 (writesOf (traceOf envAllOk))) = 394 :=
  ⟨setupSucceeds_envAllOk,
    (C6_active_profile_decodes envAllOk setupSucceeds_envAllOk).1.2.2.2.2.1,
    (C6_active_profile_decodes envAllOk setupSucceeds_envAllOk).2.2.2.2.2.1⟩

/-- The two divider ratios of a profile from its six decoded parameters. -/
theorem decodeRatios_of (p : Profile) (a1 a2 a3 m1 m2 m3 : Nat)
    (h : (decodeP1 p.pllA, decodeP2 p.pllA, decodeP3 p.pllA,
          decodeP1 p.ms0, decodeP2 p.ms0, decodeP3 p.ms0) = (a1, a2, a3, m1, m2, m3)) :
    (decodeRatio p.pllA, decodeRatio p.ms0)
      = (((a1 : ℚ) + 512 + (a2 : ℚ) / (a3 : ℚ)) / 128,
         ((m1 : ℚ) + 512 + (m2 : ℚ) / (m3 : ℚ)) / 128) := by
  simp only [Prod.mk.injEq] at h
  obtain ⟨h1, h2, h3, h4, h5, h6⟩ := h
  unfold decodeRatio
  rw [h1, h2, h3, h4, h5, h6]

/-- The feedback divider and multisynth divider each alternate table decodes
to. -/
theorem alternate_decoded_ratios :
    (alternateProfiles.map fun p => (decodeRatio p.pllA, decodeRatio p.ms0))
        = [(28 + 457 / 5000, 198), (28 + 23447 / 62500, 50), (27 + 184137 / 200000, 390),
           (28 + 15967 / 250000, 196), (27 + 920451 / 1000000, 390), (28 + 3977 / 62500, 196),
           (27 + 38352 / 78125, 48), (28 + 12791 / 625000, 158), (28 + 83319 / 125000, 86)] := by
  have e1 := decodeRatios_of atariPal3546894 3083 3496 5000 24832 0 1 (by decide)
  have e2 := decodeRatios_of atariPal14187576 3120 1216 62500 5888 0 1 (by decide)
  have e3 := decodeRatios_of atari400800Ntsc17897875 3061 169536 200000 49408 0 1 (by decide)
  have e4 := decodeRatios_of atari400800Ntsc3579575 3080 43776 250000 24576 0 1 (by decide)
  have e5 := decodeRatios_of atariXlXeNtsc17897725 3061 817728 1000000 49408 0 1 (by decide)
  have e6 := decodeRatios_of atariXlXeNtsc3579545 3080 9056 62500 24576 0 1 (by decide)
  have e7 := decodeRatios_of atariXlXeNtsc1431818 3006 65306 78125 5632 0 1 (by decide)
  have e8 := decodeRatios_of atariPalCrystal4433618 3074 387248 625000 19712 0 1 (by decide)
  have e9 := decodeRatios_of atariXf551Crystal83333 3157 39832 125000 10496 0 1 (by decide)
  simp only [alternateProfiles, List.map, e1, e2, e3, e4, e5, e6, e7, e8, e9]
  norm_num

/-- C7: each of the nine alternate profiles kept as disabled tables decodes,
by the same SI5351 packing, to exactly the feedback divider and multisynth
divider documented beside it: 3.546894 MHz to 28 + 457/5000 and 198,
14.187576 MHz to 28 + 23447/62500 and 50, 1.7897875 MHz to
27 + 184137/200000 and 390, 3.579575 MHz to 28 + 15967/250000 and 196,
1.7897725 MHz to 27 + 920451/1000000 and 390, 3.579545 MHz to
28 + 3977/62500 and 196, 14.31818 MHz to 27 + 38352/78125 and 48,
4.433618 MHz to 28 + 12791/625000 and 158, 8.3333 MHz to 28 + 83319/125000
and 86. -/
theorem C7_alternate_profiles_decode :
    (alternateProfiles.map fun p => (decodeRatio p.pllA, decodeRatio p.ms0))
        = [(28 + 457 / 5000, 198), (28 + 23447 / 62500, 50), (27 + 184137 / 200000, 390),
           (28 + 15967 / 250000, 196), (27 + 920451 / 1000000, 390), (28 + 3977 / 62500, 196),
           (27 + 38352 / 78125, 48), (28 + 12791 / 625000, 158), (28 + 83319 / 125000, 86)]
      ∧ (alternateProfiles.map fun p => (p.feedback, (p.multisynthDivider : ℚ)))
        = [(28 + 457 / 5000, 198), (28 + 23447 / 62500, 50), (27 + 184137 / 200000, 390),
           (28 + 15967 / 250000, 196), (27 + 920451 / 1000000, 390), (28 + 3977 / 62500, 196),
           (27 + 38352 / 78125, 48), (28 + 12791 / 625000, 158), (28 + 83319 / 125000, 86)] := by
  refine ⟨alternate_decoded_ratios, ?_⟩
  simp only [alternateProfiles, List.map, atariPal3546894, atariPal14187576,
    atari400800Ntsc17897875, atari400800Ntsc3579575, atariXlXeNtsc17897725,
    atariXlXeNtsc3579545, atariXlXeNtsc1431818, atariPalCrystal4433618,
    atariXf551Crystal83333, Profile.feedback]
  norm_num

/-- The bytes `main` writes to the PLL-A block and to the Multisynth-0 block. -/
theorem written_divider_bytes (env : Env) (hopen : setupSucceeds env) :
    bytesAt 26 33 (writesOf (traceOf env)) = [0xd0, 0x90, 0x00, 0x0b, 0xf9, 0x32, 0x0e, 0x70] ∧
      bytesAt 42 49 (writesOf (traceOf env))
        = [0x00, 0x01, 0x00, 0xc3, 0x00, 0x00, 0x00, 0x00] := by
  rw [(runMain_ok env hopen).2.1]
  exact ⟨by decide, by decide⟩

/-- The two divider ratios the written bytes decode to. -/
theorem written_divider_ratios :
    (decodeRatio [0xd0, 0x90, 0x00, 0x0b, 0xf9, 0x32, 0x0e, 0x70],
      decodeRatio [0x00, 0x01, 0x00, 0xc3, 0x00, 0x00, 0x00, 0x00])
      = (27 + 237381 / 250000, 394) := by
  have h := decodeRatios_of atariPal1773447 3065 134768 250000 49920 0 1 (by decide)
  refine Eq.trans h ?_
  norm_num

/-- Output frequency programmed by the written bytes, for a 25 MHz reference
and R divider 1. -/
theorem written_output_frequency (env : Env) (hopen : setupSucceeds env) :
    outputHz 25000000 (bytesAt 26 33 (writesOf (traceOf env)))
        (bytesAt 42 49 (writesOf (traceOf env))) 1
      = 25000000 * (27 + 237381 / 250000) / 394 := by
  have hr := written_divider_ratios
  simp only [Prod.mk.injEq] at hr
  rw [(written_divider_bytes env hopen).1, (written_divider_bytes env hopen).2]
  unfold outputHz
  rw [hr.1, hr.2]
  norm_num

/-- How far below its documented output frequency (in hertz) each alternate
table lands, for a 25 MHz reference and R divider 1: six plans are exact,
three are approximations within a fraction of a hertz. -/
theorem alternate_output_offsets :
    (alternateProfiles.map fun p =>
        p.outputMHz * 1000000 - outputHz 25000000 p.pllA p.ms0 1)
      = [2 / 33, 0, 0, 0, 0, 5 / 49, 0, 2 / 79, 0] := by
  have h := alternate_decoded_ratios
  simp only [alternateProfiles, List.map, List.cons.injEq, Prod.mk.injEq, and_true] at h
  obtain ⟨⟨a1, b1⟩, ⟨a2, b2⟩, ⟨a3, b3⟩, ⟨a4, b4⟩, ⟨a5, b5⟩, ⟨a6, b6⟩, ⟨a7, b7⟩, ⟨a8, b8⟩,
    ⟨a9, b9⟩⟩ := h
  simp only [alternateProfiles, List.map, outputHz, a1, b1, a2, b2, a3, b3, a4, b4, a5, b5, a6,
    b6, a7, b7, a8, b8, a9, b9]
  norm_num [atariPal3546894, atariPal14187576, atari400800Ntsc17897875,
    atari400800Ntsc3579575, atariXlXeNtsc17897725, atariXlXeNtsc3579545, atariXlXeNtsc1431818,
    atariPalCrystal4433618, atariXf551Crystal83333]

/-- C8, counterexample: with a 25 MHz reference and R divider 1, the frequency
the written bytes program is 25 MHz x (27 + 237381/250000) / 394, which is
349369050/197 Hz and not 1 773 447 Hz. -/
theorem C8_output_frequency_counterexample :
    outputHz 25000000 (bytesAt 26 33 (writesOf (traceOf envAllOk)))
        (bytesAt 42 49 (writesOf (traceOf envAllOk))) 1
      = 25000000 * (27 + 237381 / 250000) / 394 ∧
    outputHz 25000000 (bytesAt 26 33 (writesOf (traceOf envAllOk)))
        (bytesAt 42 49 (writesOf (traceOf envAllOk))) 1 ≠ 1773447 := by
  rw [written_output_frequency envAllOk setupSucceeds_envAllOk]
  constructor <;> norm_num

/-- C8, amended: with the documented 25 MHz input frequency and R divider 1,
the output frequency the active profile programs is exactly
25 MHz x (27 + 237381/250000) / 394 = 349369050/197 Hz; it lies 9/197 Hz
below the documented 1.773447 MHz and equals it when rounded to the nearest
hertz. -/
theorem C8_output_frequency (env : Env) (hopen : setupSucceeds env) :
    outputHz 25000000 (bytesAt 26 33 (writesOf (traceOf env)))
        (bytesAt 42 49 (writesOf (traceOf env))) 1
      = 25000000 * (27 + 237381 / 250000) / 394 ∧
    outputHz 25000000 (bytesAt 26 33 (writesOf (traceOf env)))
        (bytesAt 42 49 (writesOf (traceOf env))) 1 = 349369050 / 197 ∧
    atariPal1773447.outputMHz * 1000000
      - outputHz 25000000 (bytesAt 26 33 (writesOf (traceOf env)))
          (bytesAt 42 49 (writesOf (traceOf env))) 1 = 9 / 197 ∧
    round (outputHz 25000000 (bytesAt 26 33 (writesOf (traceOf env)))
        (bytesAt 42 49 (writesOf (traceOf env))) 1) = 1773447 := by
  rw [written_output_frequency env hopen]
  refine ⟨rfl, by norm_num, by norm_num [atariPal1773447], ?_⟩
  rw [round_eq, Int.floor_eq_iff]
  constructor <;> norm_num

/-- Witness for the amended C8 in the run where every write succeeds. -/
theorem C8_output_frequency_witness :
    setupSucceeds envAllOk ∧
      round (outputHz 25000000 (bytesAt 26 33 (writesOf (traceOf envAllOk)))
        (bytesAt 42 49 (writesOf (traceOf envAllOk))) 1) = 1773447 :=
  ⟨setupSucceeds_envAllOk, (C8_output_frequency envAllOk setupSucceeds_envAllOk).2.2.2⟩

/-! ## Device state -/

theorem foldl_applyWrite_apply (l : List (Nat × Nat)) (d : Device) (a : Nat) :
    l.foldl applyWrite d a = (lastWrite l a).getD (d a) := by
  induction l generalizing d with
  | nil => rfl
  | cons w rest ih =>
    rw [List.foldl_cons, ih, lastWrite]
    cases lastWrite rest a with
    | some v => rfl
    | none =>
      by_cases h : a = w.1
      · simp [applyWrite, h]
      · simp [applyWrite, h]

/-- Taking a list of writes a second time changes nothing. -/
theorem foldl_applyWrite_twice (l : List (Nat × Nat)) (d : Device) :
    l.foldl applyWrite (l.foldl applyWrite d) = l.foldl applyWrite d := by
  funext a
  rw [foldl_applyWrite_apply l (l.foldl applyWrite d), foldl_applyWrite_apply l d]
  cases lastWrite l a <;> rfl

theorem deviceAfter_writes (fd : Int) (c : Diag) (l : List (Nat × Nat)) (d : Device) :
    deviceAfter ((l.map fun w => Event.sysWrite fd w.1 w.2) ++ [Event.cout c]) d
      = l.foldl applyWrite d := by
  induction l generalizing d with
  | nil => rfl
  | cons w rest ih =>
    cases rest with
    | nil => rfl
    | cons w2 rest2 =>
      rw [List.foldl_cons, ← ih]
      rfl

/-- Register file after a run of `main` in which the bus opens and every write
succeeds. -/
theorem deviceAfter_all_ok (env : Env) (h : setupSucceeds env) (hw : allWritesSucceed env)
    (d : Device) : deviceAfter (traceOf env) d = scenarioWrites.foldl applyWrite d := by
  rw [traceOf_all_ok env h hw, ← deviceAfter_writes env.openResult Diag.setupCompleted]
  rfl

/-- C9: with the device a map from register address to byte in which a
successful write sets exactly the addressed register, for every initial
register state, running `main` twice in succession (the bus opening and all
writes succeeding in both runs) leaves the same final register state as
running it once. -/
theorem C9_idempotent (first second : Env) (h1 : setupSucceeds first)
    (hw1 : allWritesSucceed first) (h2 : setupSucceeds second)
    (hw2 : allWritesSucceed second) (d : Device) :
    deviceAfter (traceOf second) (deviceAfter (traceOf first) d)
      = deviceAfter (traceOf first) d := by
  rw [deviceAfter_all_ok second h2 hw2, deviceAfter_all_ok first h1 hw1]
  exact foldl_applyWrite_twice scenarioWrites d

/-- Witness for C9: two runs in which every write succeeds, from the register
state holding 0xEE everywhere; the run does change the state (register 3
ends as 0x00, register 16 as 0x4F) and leaves unwritten registers alone. -/
theorem C9_idempotent_witness :
    setupSucceeds envAllOk ∧ allWritesSucceed envAllOk ∧
      deviceAfter (traceOf envAllOk) (fun _ => 0xEE) 3 = 0x00 ∧
      deviceAfter (traceOf envAllOk) (fun _ => 0xEE) 16 = 0x4F ∧
      deviceAfter (traceOf envAllOk) (fun _ => 0xEE) 34 = 0xEE ∧
      deviceAfter (traceOf envAllOk) (deviceAfter (traceOf envAllOk) (fun _ => 0xEE))
        = deviceAfter (traceOf envAllOk) (fun _ => 0xEE) :=
  ⟨setupSucceeds_envAllOk, allWritesSucceed_envAllOk, by decide, by decide, by decide,
    C9_idempotent envAllOk envAllOk setupSucceeds_envAllOk allWritesSucceed_envAllOk
      setupSucceeds_envAllOk allWritesSucceed_envAllOk (fun _ => 0xEE)⟩

/-- C10, evaluation at the failing input: in the run where the bus opens as
descriptor 3 and every write succeeds, `main` returns 0, its last action is
the completion message, and `close` is never called; the only `close` of the
program is the one on the path where binding the slave address fails. -/
theorem C10_success_path_never_closes :
    setupSucceeds envAllOk ∧ exitStatus envAllOk = 0 ∧
      Event.sysWrite 3 3 0 ∈ traceOf envAllOk ∧
      (traceOf envAllOk).getLast? = some (Event.cout Diag.setupCompleted) ∧
      closesOf (traceOf envAllOk) = [] ∧
      closesOf (traceOf envIoctlFails) = [3] := by
  decide

/-! ## Registers touched and channel control -/

/-- The registers `main` writes, in order, when the bus opens. -/
theorem registersOf_ok (env : Env) (h : setupSucceeds env) :
    registersOf (traceOf env)
      = [3, 16, 17, 18, 19, 20, 21, 22, 23, 24, 25, 26, 27, 28, 29, 30, 31, 32, 33,
         42, 43, 44, 45, 46, 47, 48, 49, 177, 3] := by
  unfold registersOf
  rw [(runMain_ok env h).2.1]
  rfl

/-- A run in which the setup fails writes no register. -/
theorem registersOf_setup_fail (env : Env) (h : ¬ setupSucceeds env) :
    registersOf (traceOf env) = [] := by
  unfold registersOf
  rw [(runMain_setup_fail env h).2]
  rfl

/-- C11: when the bus opens, the set of register addresses `main` writes is
exactly 3 and 177 together with 16 to 25, 26 to 33 and 42 to 49, and each of
the sixteen registers 26 to 33 (PLL A) and 42 to 49 (Multisynth 0) is written
exactly once; and in no run at all is a register of the PLL-B block (34 to
41) or of the Multisynth 1 to 7 blocks (50 to 91) written. -/
theorem C11_registers_written (env : Env) :
    (setupSucceeds env →
      (∀ r : Nat, r ∈ registersOf (traceOf env) ↔
        (r = 3 ∨ r = 177 ∨ (16 ≤ r ∧ r ≤ 25) ∨ (26 ≤ r ∧ r ≤ 33) ∨ (42 ≤ r ∧ r ≤ 49))) ∧
      (∀ r : Nat, (26 ≤ r ∧ r ≤ 33) ∨ (42 ≤ r ∧ r ≤ 49) →
        (registersOf (traceOf env)).count r = 1)) ∧
    (∀ r : Nat, (34 ≤ r ∧ r ≤ 41) ∨ (50 ≤ r ∧ r ≤ 91) → r ∉ registersOf (traceOf env)) := by
  by_cases h : setupSucceeds env
  · rw [registersOf_ok env h]
    refine ⟨fun _ => ⟨fun r => ?_, fun r hr => ?_⟩, fun r hr => ?_⟩
    · simp only [List.mem_cons, List.mem_singleton, List.not_mem_nil, or_false]
      omega
    · have key : ∀ r < 50, ((26 ≤ r ∧ r ≤ 33) ∨ (42 ≤ r ∧ r ≤ 49)) →
          List.count r [3, 16, 17, 18, 19, 20, 21, 22, 23, 24, 25, 26, 27, 28, 29, 30, 31,
            32, 33, 42, 43, 44, 45, 46, 47, 48, 49, 177, 3] = 1 := by
        decide
      exact key r (by omega) hr
    · simp only [List.mem_cons, List.mem_singleton, List.not_mem_nil, or_false]
      omega
  · rw [registersOf_setup_fail env h]
    exact ⟨fun h2 => absurd h2 h, fun r _ => List.not_mem_nil r⟩

/-- Witness for C11 in a run where the write to register 29 fails: register 29
is still written exactly once, register 3 is written, register 34 is not. -/
theorem C11_registers_written_witness :
    setupSucceeds envWrite29Fails ∧
      (registersOf (traceOf envWrite29Fails)).count 29 = 1 ∧
      3 ∈ registersOf (traceOf envWrite29Fails) ∧
      34 ∉ registersOf (traceOf envWrite29Fails) :=
  have hs : setupSucceeds envWrite29Fails := by decide
  ⟨hs, ((C11_registers_written envWrite29Fails).1 hs).2 29 (by decide),
    (((C11_registers_written envWrite29Fails).1 hs).1 3).mpr (Or.inl rfl),
    (C11_registers_written envWrite29Fails).2 34 (by decide)⟩

/-- C12: among the eight per-channel control writes (registers 16 to 23)
exactly one channel is powered up, channel 0.  The byte written for channel 0
is 0x4F: power-down bit 7 clear, integer-mode bit 6 set, PLL-source bit 5
clear (PLL A), invert bit 4 clear, clock-source bits 3:2 = b11 and
drive-strength bits 1:0 = b11, which is the documented channel-0 plan.  The
byte written for each of channels 1 to 7 is 0x80, with power-down bit 7 set. -/
theorem C12_channel_control (env : Env) (hopen : setupSucceeds env) :
    (writesOf (traceOf env)).filter (fun w => 16 ≤ w.1 && w.1 ≤ 23)
        = [(16, 0x4F), (17, 0x80), (18, 0x80), (19, 0x80), (20, 0x80), (21, 0x80), (22, 0x80),
           (23, 0x80)] ∧
    ((writesOf (traceOf env)).filter
        (fun w => 16 ≤ w.1 && w.1 ≤ 23 && !clkPoweredDown w.2)).map (fun w => w.1 - 16) = [0] ∧
    (∀ w ∈ writesOf (traceOf env), w.1 = 16 →
      w.2 = 0x4F ∧ clkPoweredDown w.2 = false ∧ msIntegerMode w.2 = true ∧
        msSourcePllB w.2 = false ∧ clkInverted w.2 = false ∧ clkSource w.2 = 0b11 ∧
        clkDriveStrength w.2 = 0b11 ∧ ChannelPlan.ofByte w.2 = channel0Plan) ∧
    (∀ w ∈ writesOf (traceOf env), 17 ≤ w.1 ∧ w.1 ≤ 23 →
      w.2 = 0x80 ∧ clkPoweredDown w.2 = true) := by
  rw [(runMain_ok env hopen).2.1]
  refine ⟨by decide, by decide, by decide, by decide⟩

/-- Witness for C12 in the run where every write succeeds. -/
theorem C12_channel_control_witness :
    setupSucceeds envAllOk ∧
      ((writesOf (traceOf envAllOk)).filter
        (fun w => 16 ≤ w.1 && w.1 ≤ 23 && !clkPoweredDown w.2)).map (fun w => w.1 - 16) = [0] :=
  ⟨setupSucceeds_envAllOk, (C12_channel_control envAllOk setupSucceeds_envAllOk).2.1⟩

/-! ## Integer-mode consistency of the multisynth blocks -/

/-- A parameter block with `P2 = 0`, `P3 = 1` and `P1 + 512` a multiple of
128 decodes to the integer `(P1 + 512) / 128`. -/
theorem decodeRatio_integer (b : List Nat) (h2 : decodeP2 b = 0) (h3 : decodeP3 b = 1)
    (hm : (decodeP1 b + 512) % 128 = 0) :
    decodeRatio b = (((decodeP1 b + 512) / 128 : Nat) : ℚ) := by
  have hd : (128 : Nat) ∣ decodeP1 b + 512 := Nat.dvd_of_mod_eq_zero hm
  unfold decodeRatio
  rw [h2, h3, Nat.cast_div hd (by norm_num)]
  push_cast
  ring

/-- The Nat-level facts about the multisynth block of every register table of
the source. -/
theorem multisynth_blocks_integer :
    ∀ p ∈ atariPal1773447 :: test10MHz :: alternateProfiles,
      decodeP2 p.ms0 = 0 ∧ decodeP3 p.ms0 = 1 ∧ rDivField p.ms0 = 0 ∧ divBy4Field p.ms0 = 0 ∧
        (decodeP1 p.ms0 + 512) % 128 = 0 ∧ ((decodeP1 p.ms0 + 512) / 128) % 2 = 0 ∧
        8 ≤ (decodeP1 p.ms0 + 512) / 128 ∧ (decodeP1 p.ms0 + 512) / 128 ≤ 2048 := by
  decide

/-- C13: the Multisynth-0 bytes are consistent with the integer-mode bit set
by the channel-0 control byte.  The byte `main` writes to register 16 has
integer-mode bit 6 set and the bytes it writes to registers 42 to 49 are the
active table; and for the active table, for each of the nine alternate
tables, and for the disabled 10 MHz test table as well, the decoded divider
has zero fractional part (P2 = 0, P3 = 1), the R-divider and divide-by-4 bits
of the third byte are zero, and the divider equals (P1 + 512)/128, an even
integer between 8 and 2048. -/
theorem C13_integer_mode_consistent (env : Env) (hopen : setupSucceeds env) :
    (∀ w ∈ writesOf (traceOf env), w.1 = 16 → msIntegerMode w.2 = true) ∧
    bytesAt 42 49 (writesOf (traceOf env)) = atariPal1773447.ms0 ∧
    (∀ p ∈ atariPal1773447 :: test10MHz :: alternateProfiles,
      decodeP2 p.ms0 = 0 ∧ decodeP3 p.ms0 = 1 ∧ rDivField p.ms0 = 0 ∧ divBy4Field p.ms0 = 0 ∧
        (decodeP1 p.ms0 + 512) % 128 = 0 ∧
        decodeRatio p.ms0 = (((decodeP1 p.ms0 + 512) / 128 : Nat) : ℚ) ∧
        ((decodeP1 p.ms0 + 512) / 128) % 2 = 0 ∧
        8 ≤ (decodeP1 p.ms0 + 512) / 128 ∧ (decodeP1 p.ms0 + 512) / 128 ≤ 2048) := by
  refine ⟨?_, ?_, fun p hp => ?_⟩
  · rw [(runMain_ok env hopen).2.1]
    decide
  · rw [(runMain_ok env hopen).2.1]
    decide
  · obtain ⟨h2, h3, hr, h4, hm, he, hlo, hhi⟩ := multisynth_blocks_integer p hp
    exact ⟨h2, h3, hr, h4, hm, decodeRatio_integer p.ms0 h2 h3 hm, he, hlo, hhi⟩

/-- Witness for C13 in the run where every write succeeds: the active table
decodes to the even integer 394. -/
theorem C13_integer_mode_consistent_witness :
    setupSucceeds envAllOk ∧
      bytesAt 42 49 (writesOf (traceOf envAllOk)) = atariPal1773447.ms0 ∧
      decodeRatio atariPal1773447.ms0 = (((decodeP1 atariPal1773447.ms0 + 512) / 128 : Nat) : ℚ) ∧
      (decodeP1 atariPal1773447.ms0 + 512) / 128 = 394 :=
  ⟨setupSucceeds_envAllOk,
    (C13_integer_mode_consistent envAllOk setupSucceeds_envAllOk).2.1,
    ((C13_integer_mode_consistent envAllOk setupSucceeds_envAllOk).2.2 atariPal1773447
      (List.mem_cons_self _ _)).2.2.2.2.2.1,
    by decide⟩

end Si5351
